import Mathlib

/-!
Verification of the retrieval-augmented context pipeline of the
`estimation-bot` repository: the `ChromaDBManager` content store
(`est_egg/chroma_db_manager.py`) and the `RequirementContextProvider`
context assembler (`est_egg/requirement_context_provider.py`).

The vector index (a `chromadb` collection opened with
`metadata={"hnsw:space": "cosine"}`) and the SQLite history log are external
collaborators.  They are modelled here as explicit state:

* a collection is a list of records in insertion order;
* the embedding metric is an arbitrary rational-valued distance function
  carried in the state (the code's collection is configured for cosine
  distance, whose range is `[0, 2]`);
* a `failing` flag models an underlying index/connection failure, the
  situation in which any `chromadb` client call raises;
* the `chromadb` client semantics used by the model are the documented
  behaviours of the library: `collection.add` skips (with a logged warning)
  any id already present in the collection and raises nothing for it;
  `collection.get` returns the records it finds and raises nothing for
  missing ids; `collection.update` rewrites the records whose ids exist and
  skips (with a logged warning) the ids that do not; `collection.upsert`
  validates that its parallel arrays have equal lengths before writing and
  then inserts-or-replaces; `collection.delete` removes the ids it finds
  and silently ignores missing ids; `collection.query` returns the
  `n_results` stored records nearest to the probe, in ascending distance
  order, as parallel arrays.

Non-string scalar metadata values and the per-probe outer array dimension
of query responses (always a singleton here, since the code always sends
exactly one probe text) are elided.
-/

namespace EstEgg

/-- Python exception kinds that can surface from the modelled code paths.
`validationError` is the error class named by the specification; it is
included so that statements about it can be written, although no code path
raises it. -/
inductive PyError where
  | chromaError
  | attributeError
  | indexError
  | valueError
  | validationError
  deriving DecidableEq, Repr

/-- Result of a Python call that can raise. -/
abbrev Exc (α : Type) := Except PyError α

instance exceptDecEq {ε α : Type} [DecidableEq ε] [DecidableEq α] :
    DecidableEq (Except ε α)
  | .ok x, .ok y =>
    if h : x = y then .isTrue (by rw [h])
    else .isFalse (by intro he; injection he; exact h (by assumption))
  | .ok _, .error _ => .isFalse (by intro h; exact Except.noConfusion h)
  | .error _, .ok _ => .isFalse (by intro h; exact Except.noConfusion h)
  | .error e, .error f =>
    if h : e = f then .isTrue (by rw [h])
    else .isFalse (by intro he; injection he; exact h (by assumption))

/-- A Python `dict` of string keys and (string-rendered) scalar values,
in insertion order, as `chromadb` metadata. -/
abbrev Meta := List (String × String)

/-- Python dict assignment `m[k] = v`: replaces the value of an existing
key in place (keeping its position) or appends a new key at the end. -/
def metaSet : Meta → String → String → Meta
  | [], k, v => [(k, v)]
  | (k', v') :: rest, k, v =>
    if k' = k then (k, v) :: rest else (k', v') :: metaSet rest k v

/-- Python dict lookup `m.get(k)`. -/
def metaGet (m : Meta) (k : String) : Option String :=
  (m.find? (fun kv => kv.1 = k)).map (fun kv => kv.2)

/-- Python dict lookup with default, `m.get(k, d)`. -/
def metaGetD (m : Meta) (k d : String) : String :=
  (metaGet m k).getD d

/-- One record of the vector index: id, document text and metadata. -/
structure ChromaRec where
  id : String
  document : String
  metadata : Meta
  deriving DecidableEq, Repr

/-- The vector-index collection: stored records in insertion order. -/
abbrev Collection := List ChromaRec

/-- Whether a record with the given id is stored. -/
def collHasId (coll : Collection) (i : String) : Bool :=
  coll.any (fun r => r.id = i)

/-- `chromadb` `collection.add`: each record whose id is already present in
the collection is skipped with a logged warning (it is neither overwritten
nor an error); records with new ids are appended. -/
def collAddRecs (coll : Collection) (recs : List ChromaRec) : Collection :=
  recs.foldl (fun acc r => if collHasId acc r.id then acc else acc ++ [r]) coll

/-- `chromadb` `collection.update`: records whose ids exist are rewritten in
place; ids that do not exist are skipped with a logged warning. -/
def collUpdateRecs (coll : Collection) (recs : List ChromaRec) : Collection :=
  coll.map (fun r =>
    match recs.find? (fun p => p.id = r.id) with
    | some p => p
    | none => r)

/-- `chromadb` `collection.upsert` body: insert-or-replace each record. -/
def collUpsertRecs (coll : Collection) (recs : List ChromaRec) : Collection :=
  recs.foldl
    (fun acc r =>
      if collHasId acc r.id then acc.map (fun x => if x.id = r.id then r else x)
      else acc ++ [r])
    coll

/-- `chromadb` `collection.delete`: records with matching ids are removed;
missing ids are silently ignored (no error). -/
def collDeleteIds (coll : Collection) (ids : List String) : Collection :=
  coll.filter (fun r => !(ids.contains r.id))

/-- State owned by a `ChromaDBManager`: the collection, the embedding
metric of the underlying index (distance from a probe text to a stored
document text; cosine distance in the code's configuration) and a flag
modelling an underlying index/connection failure, in which every
`chromadb` client call raises. -/
structure Store where
  coll : Collection
  emb : String → String → ℚ
  failing : Bool

/-- `collection.add` as issued by the manager: raises on a failing index,
otherwise applies the add semantics. -/
def collAddSt (st : Store) (recs : List ChromaRec) : Exc Store :=
  if st.failing then .error .chromaError
  else .ok { st with coll := collAddRecs st.coll recs }

/-- `collection.update` as issued by the manager. -/
def collUpdateSt (st : Store) (recs : List ChromaRec) : Exc Store :=
  if st.failing then .error .chromaError
  else .ok { st with coll := collUpdateRecs st.coll recs }

/-- `collection.upsert` as issued by the manager, with the parallel arrays
`documents`, `metadatas`, `ids`: the client validates that the arrays have
equal lengths before writing (raising `ValueError` otherwise), then
inserts-or-replaces. -/
def collUpsertSt (st : Store) (documents : List String) (metadatas : List Meta)
    (ids : List String) : Exc Store :=
  if st.failing then .error .chromaError
  else if documents.length = metadatas.length ∧ documents.length = ids.length then
    let recs : List ChromaRec :=
      (ids.zip (documents.zip metadatas)).map (fun p => ⟨p.1, p.2.1, p.2.2⟩)
    .ok { st with coll := collUpsertRecs st.coll recs }
  else .error .valueError

/-- `collection.delete` as issued by the manager. -/
def collDeleteSt (st : Store) (ids : List String) : Exc Store :=
  if st.failing then .error .chromaError
  else .ok { st with coll := collDeleteIds st.coll ids }

/-- `hashlib.md5(content.encode()).hexdigest()` of
`chroma_db_manager.py` lines 49 and 88, the content-derived document id.
The digest itself is computed by Python's external `hashlib`; it is
modelled as an injective deterministic function of the content, which is
all the code relies on (identical content gives the identical id, distinct
content gives distinct ids). -/
def md5Hex (content : String) : String :=
  "md5-" ++ content

/-- The call `self.db_manager.save_requirements(...)` at
`chroma_db_manager.py` lines 66 and 147.  `self.db_manager` is constructed
from `est_egg/database_manager.py` (line 6 imports `DatabaseManager` from
`est_egg.database_manager`), and that class defines no `save_requirements`
method (its methods are `initialize_database`, `save_query`,
`get_recent_queries`, `get_query_by_id` and `delete_query`; the method of
that name exists only in the sibling module `src/database_manager.py`,
which is not the one imported).  The attribute lookup therefore raises
`AttributeError` on every call. -/
def dbSaveRequirements (_ids : List String) (_contents : List String)
    (_source : String) (_metadatas : List Meta) : Exc Unit :=
  .error .attributeError

/-- Stable insertion of a (record, distance) pair into a list sorted by
ascending distance: a pair moves in front only of strictly farther pairs,
so equal distances keep the existing order. -/
def insertByDist (x : ChromaRec × ℚ) : List (ChromaRec × ℚ) → List (ChromaRec × ℚ)
  | [] => [x]
  | y :: ys => if x.2 < y.2 then x :: y :: ys else y :: insertByDist x ys

/-- Sort (record, distance) pairs by ascending distance, stably. -/
def sortByDist (l : List (ChromaRec × ℚ)) : List (ChromaRec × ℚ) :=
  l.foldr insertByDist []

/-- `chromadb` `collection.query(query_texts=[q], n_results=n)` result set
for the single probe `q`: the `n` stored records nearest to the probe by
the index's distance metric, in ascending distance order (deterministic for
a fixed collection; ties keep insertion order). -/
def collQueryHits (st : Store) (q : String) (n : Nat) : List (ChromaRec × ℚ) :=
  (sortByDist (st.coll.map (fun r => (r, st.emb q r.document)))).take n

/-- Python `zip` of four parallel lists. -/
def zip4 {α β γ δ : Type} : List α → List β → List γ → List δ →
    List (α × β × γ × δ)
  | a :: as, b :: bs, c :: cs, d :: ds => (a, b, c, d) :: zip4 as bs cs ds
  | _, _, _, _ => []

/-- One entry of the list returned by `query_similar_requirements`
(`chroma_db_manager.py` lines 177-182): the dict
`{"id": ..., "content": ..., "metadata": ..., "relevance_score": ...}`. -/
structure QueryResult where
  id : String
  content : String
  metadata : Meta
  relevance_score : ℚ
  deriving DecidableEq, Repr

/-- `ChromaDBManager.query_similar_requirements` (`chroma_db_manager.py`
lines 151-184).  The `collection.query` call is not wrapped in any
`try`/`except`, so an underlying index failure propagates to the caller.
On success the response's parallel arrays (`documents`, `metadatas`,
`distances`, `ids`, each taken at outer index 0 for the single probe) are
zipped and each hit is formatted with `relevance_score = 1.0 - dist`. -/
def query_similar_requirements (st : Store) (query : String)
    (n_results : Nat := 5) : Exc (List QueryResult) :=
  if st.failing then .error .chromaError
  else
    let hits := collQueryHits st query n_results
    let documents := hits.map (fun h => h.1.document)
    let metadatas := hits.map (fun h => h.1.metadata)
    let distances := hits.map (fun h => h.2)
    let ids := hits.map (fun h => h.1.id)
    .ok ((zip4 documents metadatas distances ids).map
      (fun e => ⟨e.2.2.2, e.1, e.2.1, 1 - e.2.2.1⟩))

/-- `ChromaDBManager.delete_requirement` (`chroma_db_manager.py` lines
186-200): the `collection.delete` call is wrapped in `try`/`except`; any
exception is converted to `False`, success to `True`. -/
def delete_requirement (st : Store) (doc_id : String) : Store × Bool :=
  match collDeleteSt st [doc_id] with
  | .ok st' => (st', true)
  | .error _ => (st, false)

/-- `ChromaDBManager.count_requirements` (`chroma_db_manager.py` lines
202-209): `return self.collection.count()`, with no `try`/`except`, so an
underlying index failure propagates to the caller. -/
def count_requirements (st : Store) : Exc Nat :=
  if st.failing then .error .chromaError else .ok st.coll.length

/-- `ChromaDBManager.add_requirement` (`chroma_db_manager.py` lines 36-68).
`freshUuid` is the value drawn by `str(uuid.uuid4())` at line 56 — a random
UUID string, which the code stores under the metadata key `"timestamp"`.
Neither the `collection.add` nor the `save_requirements` call is wrapped in
a `try`/`except`, so their exceptions propagate; the `save_requirements`
call raises `AttributeError` (see `dbSaveRequirements`), after the index
write has already happened. -/
def add_requirement (st : Store) (content : String) (source : String)
    (metadata : Option Meta) (freshUuid : String) : Store × Exc String :=
  let doc_id := md5Hex content
  let meta := metaSet (metaSet (metadata.getD []) "source" source) "timestamp" freshUuid
  match collAddSt st [⟨doc_id, content, meta⟩] with
  | .error e => (st, .error e)
  | .ok st1 =>
    match dbSaveRequirements [doc_id] [content] source [meta] with
    | .error e => (st1, .error e)
    | .ok _ => (st1, .ok doc_id)

/-- The metadata-preparation loop of `add_multiple_requirements`
(`chroma_db_manager.py` lines 93-96): into each supplied metadata dict the
store writes `"source"` and a freshly drawn `str(uuid.uuid4())` under
`"timestamp"`, overwriting caller-supplied keys of the same names.
`uuidSupply i` is the UUID drawn for the `i`-th dict. -/
def prepareMetas (metadatas : List Meta) (source : String)
    (uuidSupply : Nat → String) : List Meta :=
  metadatas.mapIdx (fun i m =>
    metaSet (metaSet m "source" source) "timestamp" (uuidSupply i))

/-- The dict comprehensions at `chroma_db_manager.py` lines 111-114: select
the indices `i` of `range(len(doc_ids))` whose id satisfies `pick`,
building `(doc_ids[i], contents[i], metadatas[i])` for each.  The indexing
`metadatas[i]` raises `IndexError` when the supplied metadata list is
shorter than `contents` (the ids and contents indices are always in
bounds, as `doc_ids` is derived from `contents`). -/
def buildSelected (idxs : List Nat) (doc_ids contents : List String)
    (prepared : List Meta) (pick : String → Bool) : Exc (List ChromaRec) :=
  match idxs with
  | [] => .ok []
  | i :: rest =>
    let id_ := doc_ids.getD i ""
    if pick id_ then
      match prepared[i]? with
      | none => .error .indexError
      | some m =>
        match buildSelected rest doc_ids contents prepared pick with
        | .error e => .error e
        | .ok tail => .ok (⟨id_, contents.getD i "", m⟩ :: tail)
    else buildSelected rest doc_ids contents prepared pick

/-- The body of the outer `try` of `add_multiple_requirements`
(`chroma_db_manager.py` lines 99-136): partition by `existing_ids`
membership, then `collection.update` the "already present" part and
`collection.add` the "new" part. -/
def amTryBlock (st : Store) (doc_ids contents : List String)
    (prepared : List Meta) (existing_ids : List String) : Exc Store :=
  match buildSelected (List.range doc_ids.length) doc_ids contents prepared
      (fun d => existing_ids.contains d) with
  | .error e => .error e
  | .ok to_update =>
    match buildSelected (List.range doc_ids.length) doc_ids contents prepared
        (fun d => !(existing_ids.contains d)) with
    | .error e => .error e
    | .ok to_add =>
      match (if to_update.isEmpty then .ok st else collUpdateSt st to_update) with
      | .error e => .error e
      | .ok st1 =>
        match (if to_add.isEmpty then .ok st1 else collAddSt st1 to_add) with
        | .error e => .error e
        | .ok st2 => .ok st2

/-- The outer `try`/`except` of `add_multiple_requirements`: any exception
from the try body triggers the fallback `collection.upsert` of the whole
batch (`chroma_db_manager.py` lines 137-144), whose own failure — being
unwrapped — propagates. -/
def amWithFallback (st : Store) (doc_ids contents : List String)
    (prepared : List Meta) (existing_ids : List String) : Store × Exc Unit :=
  match amTryBlock st doc_ids contents prepared existing_ids with
  | .ok st2 => (st2, .ok ())
  | .error _ =>
    match collUpsertSt st contents prepared doc_ids with
    | .ok st2 => (st2, .ok ())
    | .error e => (st, .error e)

/-- `ChromaDBManager.add_multiple_requirements` (`chroma_db_manager.py`
lines 70-149).

The existence-check loop (lines 100-108) wraps each `collection.get(ids=
[doc_id])` in an inner `try`/`except Exception: pass` and appends the id to
`existing_ids` whenever `get` does not raise.  `chromadb`'s `get` returns
a (possibly empty) result and raises nothing for a missing id, so on a
healthy index every id is appended — the membership check degenerates to
`existing_ids = doc_ids`; on a failing index every `get` raises and is
swallowed, leaving `existing_ids = []`.

After the try/except (see `amTryBlock` and `amWithFallback`),
`self.db_manager.save_requirements(...)` (line 147) raises
`AttributeError` (see `dbSaveRequirements`) before `doc_ids` can be
returned — except on the empty batch, which returns `[]` at line 85 before
any of this. -/
def add_multiple_requirements (st : Store) (contents : List String)
    (source : String) (metadatas : Option (List Meta))
    (uuidSupply : Nat → String) : Store × Exc (List String) :=
  if contents.isEmpty then (st, .ok [])
  else
    let doc_ids := contents.map md5Hex
    let mds := metadatas.getD (contents.map (fun _ => ([] : Meta)))
    let prepared := prepareMetas mds source uuidSupply
    let existing_ids := if st.failing then [] else doc_ids
    match amWithFallback st doc_ids contents prepared existing_ids with
    | (st2, .error e) => (st2, .error e)
    | (st2, .ok _) =>
      match dbSaveRequirements doc_ids contents source prepared with
      | .error e => (st2, .error e)
      | .ok _ => (st2, .ok doc_ids)

/-- CPython `f"{x:.2f}"` on the exact rational value of `x`: the decimal
rendering with two digits after the point, rounding to nearest with ties to
even at the hundredths place.  (The code formats a Python float; the
difference between the float nearest to the rational and the rational
itself is far below the hundredths granularity used by the code.)
Computed on the normalized numerator/denominator: `|x| * 100` is
`(100 * q.num.natAbs) / q.den` with remainder deciding the rounding. -/
def pyFormat2 (q : ℚ) : String :=
  let den := q.den
  let p := 100 * q.num.natAbs
  let quot := p / den
  let rem := p % den
  let r :=
    if den < 2 * rem then quot + 1
    else if 2 * rem < den then quot
    else if quot % 2 = 0 then quot else quot + 1
  let decPart := r % 100
  let decStr := if decPart < 10 then "0" ++ toString decPart else toString decPart
  (if q < 0 then "-" else "") ++ toString (r / 100) ++ "." ++ decStr

/-- `RequirementContextProvider.__init__`
(`requirement_context_provider.py` lines 11-20): the instance holds
exactly the attributes `chroma_db` (the ChromaDBManager, i.e. its store
state here) and `max_results`. -/
structure RequirementContextProvider where
  chroma_db : Store
  max_results : Nat

/-- The attributes assigned in `RequirementContextProvider.__init__` and
the methods defined by the class body of `requirement_context_provider.py`
lines 6-68: the class declares nothing else. -/
def requirementContextProviderMembers : List String :=
  ["__init__", "get_info", "chroma_db", "max_results"]

/-- The agent input mapping passed to `get_info`: string keys to values
that are either a string or Python `None` (`none` here). -/
abbrev AgentInput := List (String × Option String)

/-- Python truthiness test `k in current_input and current_input[k]` for a
string-or-`None` value: gives the value when the key is present and its
value is a non-empty string. -/
def truthyGet (input : AgentInput) (k : String) : Option String :=
  match (input.find? (fun kv => kv.1 = k)).map (fun kv => kv.2) with
  | some (some s) => if s = "" then none else some s
  | _ => none

/-- The query-extraction branch of `get_info`
(`requirement_context_provider.py` lines 32-39): a truthy `"requirement"`
value is used directly, else a truthy `"markdown_file_path"` value `p` is
wrapped as `f"Requirements in file {p}"`, else the query stays `""`. -/
def extractQuery (input : AgentInput) : String :=
  match truthyGet input "requirement" with
  | some s => s
  | none =>
    match truthyGet input "markdown_file_path" with
    | some p => "Requirements in file " ++ p
    | none => ""

/-- The three lines the formatting loop appends for requirement number `i`
(`requirement_context_provider.py` lines 61-66): the header line with
source (defaulting to `"Unknown source"`) and the relevance rendered to two
decimal places, the content line, and a blank line. -/
def reqLines (i : Nat) (r : QueryResult) : List String :=
  ["**Requirement " ++ toString i ++ "** (Source: " ++
      metaGetD r.metadata "source" "Unknown source" ++ ", Relevance: " ++
      pyFormat2 r.relevance_score ++ ")",
   r.content,
   ""]

/-- The `context_parts` list built at `requirement_context_provider.py`
lines 59-66: the section header, a blank line, then the three lines per
requirement, numbered from 1 (`enumerate(similar_requirements, 1)`). -/
def contextParts (rs : List QueryResult) : List String :=
  ["### Similar Historical Requirements", ""] ++
    (((List.range rs.length).zip rs).map (fun p => reqLines (p.1 + 1) p.2)).flatten

/-- Python `"\n".join(parts)`. -/
def joinLines : List String → String
  | [] => ""
  | [x] => x
  | x :: xs => x ++ "\n" ++ joinLines xs

/-- The result-dependent tail of `get_info`
(`requirement_context_provider.py` lines 55-68): the sentinel for an empty
result list, otherwise `"\n".join(context_parts)`. -/
def assembleFromResults (rs : List QueryResult) : String :=
  if rs.isEmpty then "No similar historical requirements found in the database."
  else joinLines (contextParts rs)

/-- The observable outcome of a `get_info` call: the returned string (or
propagated exception), the probe texts sent to the underlying store during
the call, and the provider instance as it stands after the call. -/
structure GetInfoOut where
  result : Exc String
  issuedQueries : List String
  selfAfter : RequirementContextProvider

/-- `RequirementContextProvider.get_info`
(`requirement_context_provider.py` lines 22-68).  An empty extracted query
returns the no-data sentinel without touching the store; otherwise the
store is queried once (an exception from it propagating, as the call is
unwrapped) and the result list is formatted by `assembleFromResults`.  The
method assigns no attribute, so the instance is unchanged. -/
def get_info (self : RequirementContextProvider) (input : AgentInput) :
    GetInfoOut :=
  let query := extractQuery input
  if query = "" then
    ⟨.ok "No historical requirements data available.", [], self⟩
  else
    match query_similar_requirements self.chroma_db query self.max_results with
    | .error e => ⟨.error e, [query], self⟩
    | .ok rs => ⟨.ok (assembleFromResults rs), [query], self⟩

/-- Modelled from the spec (the repository has no such code): the context
blocks the claim describes — requirements numbered from `k` upward in
result order, each a line carrying the literal fragment
`(Source: <source>, Relevance: <relevance to 2 decimal places>)` with the
source read from `metadata["source"]` (default `"Unknown source"`),
followed by the result's content and a blank line. -/
def specBlocks : Nat → List QueryResult → List String
  | _, [] => []
  | k, r :: rest =>
    ("**Requirement " ++ toString k ++ "** (Source: " ++
        metaGetD r.metadata "source" "Unknown source" ++ ", Relevance: " ++
        pyFormat2 r.relevance_score ++ ")") ::
      r.content :: "" :: specBlocks (k + 1) rest

/-- Modelled from the spec (`spec.md` §3, §4.1): the metadata the
specification says a stored record carries — the caller's metadata with the
store-owned `"source"` set to the caller's source argument and the
store-owned `"timestamp"` set to the record-creation instant `now`. -/
def specStoredMetadata (metadata : Meta) (source now : String) : Meta :=
  metaSet (metaSet metadata "source" source) "timestamp" now

/-! ### Concrete fixtures used by the closed theorems -/

/-- A degenerate embedding metric: distance 0 everywhere. -/
def zeroEmb : String → String → ℚ := fun _ _ => 0

/-- A fresh, healthy store over an empty collection. -/
def emptyStore : Store := ⟨[], zeroEmb, false⟩

/-- A store whose underlying index/connection is failing: every client
call raises. -/
def failingStore : Store := ⟨[], zeroEmb, true⟩

/-- An embedding metric under which the probe is close to
`"apples are red"` (cosine distance 1/8) and far from everything else
(cosine distance 3/2, i.e. negatively correlated — a legitimate cosine
distance, which ranges over [0, 2]). -/
def exampleEmb : String → String → ℚ :=
  fun _ d => if d = "apples are red" then mkRat 1 8 else mkRat 3 2

/-- A healthy store holding two records. -/
def exampleStore : Store :=
  ⟨[⟨"i1", "apples are red", [("source", "reqs.md")]⟩,
    ⟨"i2", "cars are fast", []⟩], exampleEmb, false⟩

/-- An embedding metric whose distance is always 3/2. -/
def farEmb : String → String → ℚ := fun _ _ => 3/2

/-- A healthy store holding one record that is negatively correlated with
every probe. -/
def farStore : Store := ⟨[⟨"i1", "opposite doc", []⟩], farEmb, false⟩

/-- A healthy store pre-seeded with the record for content `"c1"` under
its content-derived id. -/
def seededStore : Store :=
  ⟨[⟨md5Hex "c1", "c1", [("source", "old"), ("timestamp", "t0")]⟩], zeroEmb, false⟩

/-- An embedding metric with constant distance 127/1000 (so the relevance
score is 0.873, the value used in the spec's formatting example). -/
def assembleEmb : String → String → ℚ := fun _ _ => mkRat 127 1000

/-- A healthy store holding the spec's formatting example record. -/
def assembleStore : Store :=
  ⟨[⟨md5Hex "Add login page", "Add login page", [("source", "reqs.md")]⟩],
    assembleEmb, false⟩

/-- A context provider over `assembleStore` with the default
`max_results = 5`. -/
def assembleProvider : RequirementContextProvider := ⟨assembleStore, 5⟩

/-! ### Helper lemmas -/

theorem metaGet_metaSet_self (m : Meta) (k v : String) :
    metaGet (metaSet m k v) k = some v := by
  induction m with
  | nil => simp [metaSet, metaGet, List.find?]
  | cons kv rest ih =>
    by_cases h : kv.1 = k
    · simp [metaSet, h, metaGet, List.find?]
    · simpa [metaSet, h, metaGet, List.find?] using ih

theorem metaGet_metaSet_other (m : Meta) {k k' : String} (v : String)
    (h : k' ≠ k) : metaGet (metaSet m k v) k' = metaGet m k' := by
  have h2 : k ≠ k' := Ne.symm h
  induction m with
  | nil => simp [metaSet, metaGet, List.find?, h2]
  | cons kv rest ih =>
    by_cases hk : kv.1 = k
    · simp [metaSet, hk, metaGet, List.find?, h2]
    · by_cases hk' : kv.1 = k'
      · simp [metaSet, hk, metaGet, List.find?, hk', h]
      · simpa [metaSet, hk, metaGet, List.find?, hk'] using ih

theorem mem_insertByDist {x y : ChromaRec × ℚ} {l : List (ChromaRec × ℚ)} :
    y ∈ insertByDist x l ↔ y = x ∨ y ∈ l := by
  induction l with
  | nil => simp [insertByDist]
  | cons z zs ih =>
    by_cases h : x.2 < z.2
    · simp [insertByDist, h]
    · simp only [insertByDist, if_neg h, List.mem_cons, ih]
      tauto

theorem mem_sortByDist {y : ChromaRec × ℚ} {l : List (ChromaRec × ℚ)} :
    y ∈ sortByDist l ↔ y ∈ l := by
  induction l with
  | nil => simp [sortByDist]
  | cons z zs ih =>
    simp only [sortByDist, List.foldr_cons, List.mem_cons]
    rw [show List.foldr insertByDist [] zs = sortByDist zs from rfl] at *
    simp [mem_insertByDist, ih]

theorem pairwise_insertByDist {x : ChromaRec × ℚ} {l : List (ChromaRec × ℚ)}
    (hl : l.Pairwise (fun a b => a.2 ≤ b.2)) :
    (insertByDist x l).Pairwise (fun a b => a.2 ≤ b.2) := by
  induction l with
  | nil => simp [insertByDist]
  | cons z zs ih =>
    rcases List.pairwise_cons.mp hl with ⟨hz, hzs⟩
    by_cases h : x.2 < z.2
    · rw [insertByDist, if_pos h]
      refine List.pairwise_cons.mpr ⟨?_, hl⟩
      intro b hb
      rcases List.mem_cons.mp hb with rfl | hb
      · exact le_of_lt h
      · exact le_trans (le_of_lt h) (hz b hb)
    · rw [insertByDist, if_neg h]
      refine List.pairwise_cons.mpr ⟨?_, ih hzs⟩
      intro b hb
      rcases mem_insertByDist.mp hb with rfl | hb
      · exact not_lt.mp h
      · exact hz b hb

theorem pairwise_sortByDist (l : List (ChromaRec × ℚ)) :
    (sortByDist l).Pairwise (fun a b => a.2 ≤ b.2) := by
  induction l with
  | nil => simp [sortByDist]
  | cons z zs ih => exact pairwise_insertByDist ih

theorem zip4_map_same {α β γ δ ε : Type} (l : List α) (f : α → β) (g : α → γ)
    (h : α → δ) (k : α → ε) :
    zip4 (l.map f) (l.map g) (l.map h) (l.map k) =
      l.map (fun x => (f x, g x, h x, k x)) := by
  induction l with
  | nil => rfl
  | cons a as ih => simpa [zip4] using ih

/-- On a healthy index, `query_similar_requirements` returns exactly the
formatted query hits. -/
theorem query_eq_map_hits (st : Store) (q : String) (n : Nat)
    (hf : st.failing = false) :
    query_similar_requirements st q n =
      .ok ((collQueryHits st q n).map
        (fun h => ⟨h.1.id, h.1.document, h.1.metadata, 1 - h.2⟩)) := by
  simp only [query_similar_requirements, hf, Bool.false_eq_true, if_false,
    zip4_map_same, List.map_map]
  rfl

theorem mem_collQueryHits {st : Store} {q : String} {n : Nat}
    {h : ChromaRec × ℚ} (hm : h ∈ collQueryHits st q n) :
    h.1 ∈ st.coll ∧ h.2 = st.emb q h.1.document := by
  have h1 : h ∈ sortByDist (st.coll.map (fun r => (r, st.emb q r.document))) :=
    (List.take_sublist n _).subset hm
  have h2 := mem_sortByDist.mp h1
  rcases List.mem_map.mp h2 with ⟨r, hr, rfl⟩
  exact ⟨hr, rfl⟩

theorem pairwise_collQueryHits (st : Store) (q : String) (n : Nat) :
    (collQueryHits st q n).Pairwise (fun a b => a.2 ≤ b.2) :=
  List.Pairwise.sublist (List.take_sublist n _) (pairwise_sortByDist _)

theorem length_collQueryHits_le (st : Store) (q : String) (n : Nat) :
    (collQueryHits st q n).length ≤ n := by
  simp [collQueryHits]

theorem buildSelected_all_pick (idxs : List Nat) (doc_ids contents : List String)
    (prepared : List Meta) (pick : String → Bool)
    (hpick : ∀ i ∈ idxs, pick (doc_ids.getD i "") = true)
    (hlen : ∀ i ∈ idxs, i < prepared.length) :
    buildSelected idxs doc_ids contents prepared pick =
      .ok (idxs.map (fun i =>
        ⟨doc_ids.getD i "", contents.getD i "", prepared.getD i []⟩)) := by
  induction idxs with
  | nil => rfl
  | cons i rest ih =>
    have hi := hpick i (List.mem_cons_self i rest)
    have hil := hlen i (List.mem_cons_self i rest)
    have hsome : prepared[i]? = some (prepared.getD i []) := by
      simp [List.getElem?_eq_getElem hil, List.getD_eq_getElem prepared [] hil]
    simp only [buildSelected, hi, if_true, hsome,
      ih (fun j hj => hpick j (List.mem_cons_of_mem i hj))
        (fun j hj => hlen j (List.mem_cons_of_mem i hj)),
      List.map_cons]

theorem buildSelected_none_pick (idxs : List Nat) (doc_ids contents : List String)
    (prepared : List Meta) (pick : String → Bool)
    (hpick : ∀ i ∈ idxs, pick (doc_ids.getD i "") = false) :
    buildSelected idxs doc_ids contents prepared pick = .ok [] := by
  induction idxs with
  | nil => rfl
  | cons i rest ih =>
    have hi := hpick i (List.mem_cons_self i rest)
    simp only [buildSelected, hi, Bool.false_eq_true, if_false]
    exact ih (fun j hj => hpick j (List.mem_cons_of_mem i hj))

theorem collHasId_false_iff {coll : Collection} {i : String} :
    collHasId coll i = false ↔ ∀ r ∈ coll, r.id ≠ i := by
  simp [collHasId]

theorem collHasId_true_iff {coll : Collection} {i : String} :
    collHasId coll i = true ↔ ∃ r ∈ coll, r.id = i := by
  simp [collHasId]

theorem collDeleteIds_single_eq (coll : Collection) (i : String) :
    collDeleteIds coll [i] = coll.filter (fun r => !decide (r.id = i)) := by
  unfold collDeleteIds
  apply List.filter_congr
  intro r _
  cases hbe : r.id == i with
  | true =>
    have he : r.id = i := by simpa using hbe
    simp [List.contains, List.elem, hbe, he]
  | false =>
    have hne : r.id ≠ i := by simpa using hbe
    simp [List.contains, List.elem, hbe, hne]

theorem collDeleteIds_single_absent {coll : Collection} {i : String}
    (h : ∀ r ∈ coll, r.id ≠ i) : collDeleteIds coll [i] = coll := by
  rw [collDeleteIds_single_eq]
  refine List.filter_eq_self.mpr (fun r hr => ?_)
  simp [h r hr]

theorem length_collDeleteIds_single_present {coll : Collection} {i : String}
    (hnd : (coll.map ChromaRec.id).Nodup) (h : ∃ r ∈ coll, r.id = i) :
    (collDeleteIds coll [i]).length + 1 = coll.length := by
  rw [collDeleteIds_single_eq]
  induction coll with
  | nil => rcases h with ⟨r, hr, _⟩; exact absurd hr (List.not_mem_nil r)
  | cons r rest ih =>
    rw [List.map_cons, List.nodup_cons] at hnd
    by_cases hr : r.id = i
    · have habs : ∀ s ∈ rest, s.id ≠ i := by
        intro s hs he
        exact hnd.1 (List.mem_map.mpr ⟨s, hs, by rw [he, hr]⟩)
      have hkeep : rest.filter (fun r => !decide (r.id = i)) = rest :=
        List.filter_eq_self.mpr (fun s hs => by simp [habs s hs])
      simp [List.filter_cons, hr, hkeep]
    · have hrest : ∃ s ∈ rest, s.id = i := by
        rcases h with ⟨s, hs, hsi⟩
        rcases List.mem_cons.mp hs with rfl | hs'
        · exact absurd hsi hr
        · exact ⟨s, hs', hsi⟩
      have hih := ih hnd.2 hrest
      simp only [List.filter_cons, hr, decide_False, Bool.not_false, if_true,
        List.length_cons] at hih ⊢
      omega

theorem mapIdx_prepareMetas (mds : List Meta) (src : String)
    (supply : Nat → String) (i : Nat)
    (h : i < (prepareMetas mds src supply).length) :
    metaGet ((prepareMetas mds src supply).get ⟨i, h⟩) "source" = some src ∧
    metaGet ((prepareMetas mds src supply).get ⟨i, h⟩) "timestamp"
      = some (supply i) := by
  have hval : (prepareMetas mds src supply).get ⟨i, h⟩ =
      metaSet (metaSet (mds.get ⟨i, by simpa [prepareMetas] using h⟩)
        "source" src) "timestamp" (supply i) := by
    simp [prepareMetas, List.get_eq_getElem, List.getElem_mapIdx]
  rw [hval]
  constructor
  · rw [metaGet_metaSet_other _ _ (by decide), metaGet_metaSet_self]
  · rw [metaGet_metaSet_self]

theorem collAddRecs_single (coll : Collection) (rec : ChromaRec) :
    collAddRecs coll [rec] =
      if collHasId coll rec.id then coll else coll ++ [rec] := rfl

/-- Every record present after `add_requirement` either was already stored
or is the freshly written record, whose metadata carries the store-owned
`source` and the uuid drawn as `timestamp`. -/
theorem add_requirement_records (st : Store) (c src : String)
    (m : Option Meta) (u : String) :
    ∀ rec ∈ (add_requirement st c src m u).1.coll,
      rec ∈ st.coll ∨
        (metaGet rec.metadata "source" = some src ∧
         metaGet rec.metadata "timestamp" = some u) := by
  intro rec hrec
  cases hf : st.failing with
  | true =>
    simp only [add_requirement, collAddSt, hf, if_true] at hrec
    exact Or.inl hrec
  | false =>
    simp only [add_requirement, collAddSt, hf, Bool.false_eq_true, if_false,
      dbSaveRequirements, collAddRecs_single] at hrec
    by_cases hp : collHasId st.coll (md5Hex c)
    · simp [hp] at hrec
      exact Or.inl hrec
    · simp [hp] at hrec
      rcases hrec with hrec | rfl
      · exact Or.inl hrec
      · refine Or.inr ⟨?_, ?_⟩
        · rw [metaGet_metaSet_other _ _ (by decide), metaGet_metaSet_self]
        · rw [metaGet_metaSet_self]

theorem enumFlatten_specBlocks (rs : List QueryResult) (k : Nat) :
    (((List.range rs.length).zip rs).map
      (fun p => reqLines (p.1 + (k + 1)) p.2)).flatten = specBlocks (k + 1) rs := by
  induction rs generalizing k with
  | nil => rfl
  | cons r rest ih =>
    rw [List.length_cons, List.range_succ_eq_map, List.zip_cons_cons,
      List.zip_map_left, List.map_cons, List.map_map, List.flatten_cons]
    have harg : ((fun p => reqLines (p.1 + (k + 1)) p.2) ∘ Prod.map Nat.succ id)
        = fun p : Nat × QueryResult => reqLines (p.1 + (k + 1 + 1)) p.2 := by
      funext p
      simp [Function.comp, Prod.map]
      congr 1
      omega
    rw [harg, ih (k + 1)]
    simp only [Nat.zero_add]
    rfl

theorem contextParts_eq_specBlocks (rs : List QueryResult) :
    contextParts rs = "### Similar Historical Requirements" :: "" :: specBlocks 1 rs := by
  have := enumFlatten_specBlocks rs 0
  simpa [contextParts] using this

/-- For a nonempty result list the assembled string is the section header,
a blank line, and the claim-side blocks, joined by newlines. -/
theorem assembleFromResults_nonempty (rs : List QueryResult) (h : rs ≠ []) :
    assembleFromResults rs =
      "### Similar Historical Requirements\n\n" ++ joinLines (specBlocks 1 rs) := by
  rcases rs with _ | ⟨r, rest⟩
  · exact absurd rfl h
  · rw [assembleFromResults, if_neg (by simp), contextParts_eq_specBlocks]
    show joinLines ("### Similar Historical Requirements" :: "" ::
      specBlocks 1 (r :: rest)) = _
    rw [show specBlocks 1 (r :: rest) =
      ("**Requirement " ++ toString 1 ++ "** (Source: " ++
          metaGetD r.metadata "source" "Unknown source" ++ ", Relevance: " ++
          pyFormat2 r.relevance_score ++ ")") ::
        r.content :: "" :: specBlocks 2 rest from rfl]
    rw [joinLines, joinLines]
    rw [show ("### Similar Historical Requirements" ++ "\n")
      = "### Similar Historical Requirements\n" from rfl]
    rw [show ("" ++ "\n") = "\n" from rfl]
    rw [← String.append_assoc]
    rfl
    all_goals exact fun hc => List.noConfusion hc

/-- When every id passes the membership pick and none passes its negation,
the try body updates the whole batch (inserting nothing). -/
theorem amTryBlock_all_existing (st : Store) (doc_ids contents : List String)
    (prepared : List Meta) (recs : List ChromaRec) (hf : st.failing = false)
    (hupd : buildSelected (List.range doc_ids.length) doc_ids contents prepared
      (fun d => doc_ids.contains d) = .ok recs)
    (hadd : buildSelected (List.range doc_ids.length) doc_ids contents prepared
      (fun d => !(doc_ids.contains d)) = .ok [])
    (hne : recs ≠ []) :
    amTryBlock st doc_ids contents prepared doc_ids =
      .ok { st with coll := collUpdateRecs st.coll recs } := by
  unfold amTryBlock
  rw [hupd, hadd]
  simp [List.isEmpty_iff, hne, collUpdateSt, hf]

theorem amWithFallback_of_ok (st st2 : Store) (doc_ids contents : List String)
    (prepared : List Meta) (existing : List String)
    (h : amTryBlock st doc_ids contents prepared existing = .ok st2) :
    amWithFallback st doc_ids contents prepared existing = (st2, .ok ()) := by
  unfold amWithFallback
  rw [h]

/-! ### Claim theorems -/

/-- C1: evaluation of `add_requirement` at the claim's scenario — two adds
of `"same text"` with sources `"a"` then `"b"` on a fresh store.  Both
calls raise `AttributeError` (the `DatabaseManager` imported from
`est_egg/database_manager.py` has no `save_requirements` method), so
neither returns the id; and because the underlying `collection.add` skips
an id that is already present, exactly one record remains whose metadata
keeps the FIRST write's `source = "a"` and first uuid — first-write-wins
on the index, not the claimed last-write-wins. -/
theorem C1_add_upsert_crashes_and_keeps_first_metadata :
    (add_requirement emptyStore "same text" "a" none "uuid-1").2
      = .error .attributeError ∧
    (add_requirement (add_requirement emptyStore "same text" "a" none
      "uuid-1").1 "same text" "b" none "uuid-2").2 = .error .attributeError ∧
    (add_requirement (add_requirement emptyStore "same text" "a" none
      "uuid-1").1 "same text" "b" none "uuid-2").1.coll
      = [⟨md5Hex "same text", "same text",
          [("source", "a"), ("timestamp", "uuid-1")]⟩] ∧
    count_requirements (add_requirement (add_requirement emptyStore
      "same text" "a" none "uuid-1").1 "same text" "b" none "uuid-2").1
      = .ok 1 := by
  exact ⟨rfl, rfl, rfl, rfl⟩

/-- C2 counterexample: the claim says every `relevance_score` lies in
`[0, 1]`, but `relevance_score = 1 - distance` with cosine distances
ranging over `[0, 2]`: at distance 3/2 the returned score is negative. -/
theorem C2_relevance_can_fall_below_zero :
    query_similar_requirements farStore "any probe" 5
      = .ok [⟨"i1", "opposite doc", [], 1 - 3/2⟩] ∧
    ((1 : ℚ) - 3/2) < 0 :=
  ⟨rfl, by norm_num⟩

/-- C2 (amended): each returned result's `relevance_score` equals exactly
1 minus the distance the index reports for it, the sequence holds at most
`limit` results ordered by descending relevance, and — the distance metric
being cosine, ranging over `[0, 2]` — the score lies in `[-1, 1]` (it lies
in `[0, 1]` only when the distance is at most 1). -/
theorem C2_relevance_exact_bounded_ordered (st : Store) (q : String)
    (n : Nat) (rs : List QueryResult) (hf : st.failing = false)
    (hemb : ∀ p d, 0 ≤ st.emb p d ∧ st.emb p d ≤ 2)
    (hq : query_similar_requirements st q n = .ok rs) :
    rs.length ≤ n ∧
    (∀ r ∈ rs, r.relevance_score = 1 - st.emb q r.content ∧
      -1 ≤ r.relevance_score ∧ r.relevance_score ≤ 1) ∧
    rs.Pairwise (fun a b => b.relevance_score ≤ a.relevance_score) := by
  rw [query_eq_map_hits st q n hf] at hq
  have hrs : rs = (collQueryHits st q n).map
      (fun h => ⟨h.1.id, h.1.document, h.1.metadata, 1 - h.2⟩) :=
    (Except.ok.inj hq).symm
  subst hrs
  refine ⟨by simpa using length_collQueryHits_le st q n, ?_, ?_⟩
  · intro r hr
    rcases List.mem_map.mp hr with ⟨h, hh, rfl⟩
    have hm := mem_collQueryHits hh
    refine ⟨?_, ?_, ?_⟩
    · show (1 : ℚ) - h.2 = 1 - st.emb q h.1.document
      rw [hm.2]
    · show (-1 : ℚ) ≤ 1 - h.2
      have hb := hemb q h.1.document
      rw [hm.2]
      linarith [hb.1, hb.2]
    · show (1 : ℚ) - h.2 ≤ 1
      have hb := hemb q h.1.document
      rw [hm.2]
      linarith [hb.1, hb.2]
  · rw [List.pairwise_map]
    refine (pairwise_collQueryHits st q n).imp ?_
    intro a b hab
    show (1 : ℚ) - b.2 ≤ 1 - a.2
    linarith [hab]

/-- C2 witness: the amended theorem applied to a concrete two-record
store (distances 1/8 and 3/2 to the probe). -/
theorem C2_relevance_exact_bounded_ordered_witness :
    ([⟨"i1", "apples are red", [("source", "reqs.md")], 1 - mkRat 1 8⟩,
      ⟨"i2", "cars are fast", [], 1 - mkRat 3 2⟩] : List QueryResult).length ≤ 5 ∧
    (∀ r ∈ ([⟨"i1", "apples are red", [("source", "reqs.md")], 1 - mkRat 1 8⟩,
      ⟨"i2", "cars are fast", [], 1 - mkRat 3 2⟩] : List QueryResult),
      r.relevance_score = 1 - exampleStore.emb "apple color" r.content ∧
      -1 ≤ r.relevance_score ∧ r.relevance_score ≤ 1) ∧
    ([⟨"i1", "apples are red", [("source", "reqs.md")], 1 - mkRat 1 8⟩,
      ⟨"i2", "cars are fast", [], 1 - mkRat 3 2⟩] : List QueryResult).Pairwise
      (fun a b => b.relevance_score ≤ a.relevance_score) :=
  C2_relevance_exact_bounded_ordered exampleStore "apple color" 5 _ rfl
    (by
      intro p d
      by_cases h : d = "apples are red" <;>
        simp [exampleStore, exampleEmb, h] <;> decide)
    rfl

/-- C3 counterexample: the claim says query, delete and count all swallow
underlying-index failures; in the code only `delete_requirement` has a
`try`/`except` — `query_similar_requirements` and `count_requirements`
propagate the failure instead of returning `[]` and `0`. -/
theorem C3_query_and_count_propagate_failures :
    query_similar_requirements failingStore "q" 5 = .error .chromaError ∧
    count_requirements failingStore = .error .chromaError ∧
    delete_requirement failingStore "x" = (failingStore, false) :=
  ⟨rfl, rfl, rfl⟩

/-- C3 (amended): when the underlying index fails, `delete` alone swallows
the failure (returning `false` and leaving the state), while `query` and
`count` raise it to the caller. -/
theorem C3_only_delete_swallows_read_failures (st : Store) (q i : String)
    (n : Nat) (hf : st.failing = true) :
    query_similar_requirements st q n = .error .chromaError ∧
    count_requirements st = .error .chromaError ∧
    delete_requirement st i = (st, false) := by
  refine ⟨?_, ?_, ?_⟩ <;>
    simp [query_similar_requirements, count_requirements, delete_requirement,
      collDeleteSt, hf]

/-- C3 witness: the amended theorem applied to a concrete failing store. -/
theorem C3_only_delete_swallows_read_failures_witness :
    query_similar_requirements failingStore "probe" 3 = .error .chromaError ∧
    count_requirements failingStore = .error .chromaError ∧
    delete_requirement failingStore "some-id" = (failingStore, false) :=
  C3_only_delete_swallows_read_failures failingStore "probe" "some-id" 3 rfl

/-- C4 counterexample: the claim says a supplied `metadatas` with
`len(metadatas) != len(contents)` fails with `ValidationError` before any
write.  On a store already holding the id of `"c1"`, the call with two
metadata dicts for one content performs the index write (the record is
rewritten with the new source) and then fails with `AttributeError` from
the missing `save_requirements` method — no `ValidationError`, and not
before the write. -/
theorem C4_mismatched_metadatas_without_validation_error :
    (add_multiple_requirements seededStore ["c1"] "s"
      (some [[], [("extra", "x")]]) (fun _ => "u")).2 = .error .attributeError ∧
    (add_multiple_requirements seededStore ["c1"] "s"
      (some [[], [("extra", "x")]]) (fun _ => "u")).2 ≠ .error .validationError ∧
    (add_multiple_requirements seededStore ["c1"] "s"
      (some [[], [("extra", "x")]]) (fun _ => "u")).1.coll
      = [⟨md5Hex "c1", "c1", [("source", "s"), ("timestamp", "u")]⟩] ∧
    (add_multiple_requirements seededStore ["c1"] "s"
      (some [[], [("extra", "x")]]) (fun _ => "u")).1.coll ≠ seededStore.coll := by
  refine ⟨rfl, by decide, rfl, by decide⟩

/-- C4 (amended): `add_multiple_requirements` performs no length
validation.  When the supplied `metadatas` is at least as long as
`contents` (in particular strictly longer, the mismatch case), the call
raises no `ValidationError`: on a healthy index it runs the partition and
index-write path using the first `len(contents)` metadata entries and then
fails with `AttributeError` at the history-log call — after the index
writes. -/
theorem C4_no_length_validation (st : Store) (contents : List String)
    (src : String) (mds : List Meta) (supply : Nat → String)
    (hf : st.failing = false) (hne : contents ≠ [])
    (hlen : contents.length ≤ mds.length) :
    (add_multiple_requirements st contents src (some mds) supply).2
      = .error .attributeError ∧
    (add_multiple_requirements st contents src (some mds) supply).2
      ≠ .error .validationError := by
  have hni : contents.isEmpty = false := by
    simpa [List.isEmpty_iff] using hne
  have hdlen : (contents.map md5Hex).length = contents.length :=
    List.length_map contents md5Hex
  have hplen : (prepareMetas mds src supply).length = mds.length := by
    simp [prepareMetas]
  have hmem : ∀ i ∈ List.range (contents.map md5Hex).length,
      (contents.map md5Hex).getD i "" ∈ contents.map md5Hex := by
    intro i hi
    rw [List.mem_range] at hi
    rw [List.getD_eq_getElem _ _ hi]
    exact List.getElem_mem hi
  have hupd : buildSelected (List.range (contents.map md5Hex).length)
      (contents.map md5Hex) contents (prepareMetas mds src supply)
      (fun d => (contents.map md5Hex).contains d)
      = .ok ((List.range (contents.map md5Hex).length).map (fun i =>
          ⟨(contents.map md5Hex).getD i "", contents.getD i "",
            (prepareMetas mds src supply).getD i []⟩)) := by
    refine buildSelected_all_pick _ _ _ _ _ (fun i hi => ?_) (fun i hi => ?_)
    · simpa [List.contains, List.elem_iff] using hmem i hi
    · rw [List.mem_range, hdlen] at hi
      omega
  have hadd : buildSelected (List.range (contents.map md5Hex).length)
      (contents.map md5Hex) contents (prepareMetas mds src supply)
      (fun d => !((contents.map md5Hex).contains d)) = .ok [] := by
    refine buildSelected_none_pick _ _ _ _ _ (fun i hi => ?_)
    simpa [List.contains, List.elem_iff] using hmem i hi
  have hrne : (((List.range (contents.map md5Hex).length).map (fun i =>
      (⟨(contents.map md5Hex).getD i "", contents.getD i "",
        (prepareMetas mds src supply).getD i []⟩ : ChromaRec))) ≠ []) := by
    simp only [ne_eq, List.map_eq_nil_iff, List.range_eq_nil, hdlen]
    intro h0
    exact hne (List.length_eq_zero.mp h0)
  have htry := amTryBlock_all_existing st (contents.map md5Hex) contents
    (prepareMetas mds src supply) _ hf hupd hadd hrne
  have hwf := amWithFallback_of_ok st _ (contents.map md5Hex) contents
    (prepareMetas mds src supply) (contents.map md5Hex) htry
  have hcall : (add_multiple_requirements st contents src (some mds) supply).2
      = .error .attributeError := by
    simp only [add_multiple_requirements, hni, Bool.false_eq_true, if_false,
      Option.getD_some, hf]
    rw [hwf]
    rfl
  refine ⟨hcall, ?_⟩
  rw [hcall]
  decide

/-- C4 witness: the amended theorem applied to a one-content,
two-metadata call on a healthy store. -/
theorem C4_no_length_validation_witness :
    (add_multiple_requirements seededStore ["c1"] "s" (some [[], []])
      (fun _ => "u")).2 = .error .attributeError ∧
    (add_multiple_requirements seededStore ["c1"] "s" (some [[], []])
      (fun _ => "u")).2 ≠ .error .validationError :=
  C4_no_length_validation seededStore ["c1"] "s" [[], []] (fun _ => "u")
    rfl (by decide) (by decide)

/-- C5 counterexample: the claim says `delete` of a nonexistent id returns
`false`; the underlying `collection.delete` raises nothing for a missing
id, so the code's `try` body completes and `delete_requirement` returns
`true` (the count is unchanged). -/
theorem C5_delete_nonexistent_returns_true :
    delete_requirement seededStore "nonexistent" = (seededStore, true) ∧
    count_requirements (delete_requirement seededStore "nonexistent").1
      = count_requirements seededStore :=
  ⟨rfl, rfl⟩

/-- C5 (amended): on a healthy index `delete` returns `true` regardless of
whether the id exists — the count drops by one when it did exist and is
unchanged (state identical) when it did not; on a failing index every
failure is caught and converted to `false` with the state unchanged, and
`delete` never raises. -/
theorem C5_delete_semantics (st : Store) (i : String)
    (hf : st.failing = false) (hnd : (st.coll.map ChromaRec.id).Nodup) :
    (delete_requirement st i).2 = true ∧
    (collHasId st.coll i = true →
      (delete_requirement st i).1.coll.length + 1 = st.coll.length) ∧
    (collHasId st.coll i = false → (delete_requirement st i).1 = st) ∧
    (∀ st' : Store, st'.failing = true →
      delete_requirement st' i = (st', false)) := by
  rcases st with ⟨coll, emb, fl⟩
  simp only at hf hnd
  subst hf
  refine ⟨?_, ?_, ?_, ?_⟩
  · simp [delete_requirement, collDeleteSt]
  · intro hp
    simp only [delete_requirement, collDeleteSt, Bool.false_eq_true,
      if_false]
    exact length_collDeleteIds_single_present hnd (collHasId_true_iff.mp hp)
  · intro hp
    simp only [delete_requirement, collDeleteSt, Bool.false_eq_true,
      if_false]
    rw [collDeleteIds_single_absent (collHasId_false_iff.mp hp)]
  · intro st' hf'
    simp [delete_requirement, collDeleteSt, hf']

/-- C5 witness: the amended theorem applied to the seeded one-record
store and the id actually stored in it. -/
theorem C5_delete_semantics_witness :
    (delete_requirement seededStore (md5Hex "c1")).2 = true ∧
    (collHasId seededStore.coll (md5Hex "c1") = true →
      (delete_requirement seededStore (md5Hex "c1")).1.coll.length + 1
        = seededStore.coll.length) ∧
    (collHasId seededStore.coll (md5Hex "c1") = false →
      (delete_requirement seededStore (md5Hex "c1")).1 = seededStore) ∧
    (∀ st' : Store, st'.failing = true →
      delete_requirement st' (md5Hex "c1") = (st', false)) :=
  C5_delete_semantics seededStore (md5Hex "c1") rfl (by decide)

/-- C6: evaluation of `add_multiple_requirements` at the claim's scenario —
one genuinely new content on an empty healthy store.  Because the
underlying `collection.get` raises nothing for a missing id, the code's
existence check classifies every id as "already present": the new document
is routed to `collection.update` (which skips nonexistent ids), so nothing
is inserted into the index, and the call then raises `AttributeError` from
the missing `save_requirements` method instead of returning the id list. -/
theorem C6_membership_check_degenerate_nothing_inserted :
    (add_multiple_requirements emptyStore ["new requirement"] "src" none
      (fun _ => "u")).1.coll = [] ∧
    (add_multiple_requirements emptyStore ["new requirement"] "src" none
      (fun _ => "u")).2 = .error .attributeError :=
  ⟨rfl, rfl⟩

/-- C7: when the extracted query is nonempty and the store's query
succeeds, `get_info` returns exactly the sentinel
`"No similar historical requirements found in the database."` on an empty
result list, and otherwise the block headed
`### Similar Historical Requirements` whose requirements are numbered from
1 in result order, each line carrying
`(Source: <source>, Relevance: <relevance to 2 decimal places>)` with the
source defaulting to `"Unknown source"`, followed by the content. -/
theorem C7_get_info_formats_ranked_results (p : RequirementContextProvider)
    (input : AgentInput) (rs : List QueryResult)
    (hq : extractQuery input ≠ "")
    (hres : query_similar_requirements p.chroma_db (extractQuery input)
      p.max_results = .ok rs) :
    (get_info p input).result =
      .ok (if rs.isEmpty then
          "No similar historical requirements found in the database."
        else "### Similar Historical Requirements\n\n" ++
          joinLines (specBlocks 1 rs)) := by
  simp only [get_info, if_neg hq, hres]
  by_cases hemp : rs = []
  · subst hemp
    rfl
  · have hb : rs.isEmpty = false := by
      simpa [List.isEmpty_iff] using hemp
    simp [hb, assembleFromResults_nonempty rs hemp]

/-- C7 witness: the theorem applied to the spec's formatting example — one
stored record `"Add login page"` with source `"reqs.md"` at distance
127/1000 (relevance 0.873); with the additional fact that the relevance is
rendered as `0.87`. -/
theorem C7_get_info_formats_ranked_results_witness :
    (get_info assembleProvider [("requirement", some "login page")]).result =
      .ok (if ([⟨md5Hex "Add login page", "Add login page",
            [("source", "reqs.md")], 1 - mkRat 127 1000⟩]
          : List QueryResult).isEmpty then
          "No similar historical requirements found in the database."
        else "### Similar Historical Requirements\n\n" ++
          joinLines (specBlocks 1 [⟨md5Hex "Add login page", "Add login page",
            [("source", "reqs.md")], 1 - mkRat 127 1000⟩])) ∧
    pyFormat2 (1 - mkRat 127 1000) = "0.87" :=
  ⟨C7_get_info_formats_ranked_results assembleProvider
      [("requirement", some "login page")]
      [⟨md5Hex "Add login page", "Add login page", [("source", "reqs.md")],
        1 - mkRat 127 1000⟩]
      (by decide) rfl,
    by
      rw [show (1 : ℚ) - mkRat 127 1000 = mkRat 873 1000 by
        rw [Rat.mkRat_eq_div, Rat.mkRat_eq_div]
        norm_num]
      rfl⟩

/-- C8 counterexample: after a `get_info` call that assembled a context
string, the provider instance is unchanged (no cached string exists on it)
and the class exposes no `get_last_context` member at all. -/
theorem C8_no_cache_and_no_accessor :
    (get_info assembleProvider [("requirement", some "login page")]).selfAfter
      = assembleProvider ∧
    ¬ ("get_last_context" ∈ requirementContextProviderMembers) :=
  ⟨rfl, by decide⟩

/-- C8 (amended): `get_info` returns the assembled string directly and
performs no instance mutation; the provider carries only `chroma_db` and
`max_results`, and no `get_last_context` accessor exists anywhere in the
class. -/
theorem C8_get_info_mutates_nothing (p : RequirementContextProvider)
    (input : AgentInput) :
    (get_info p input).selfAfter = p ∧
    ¬ ("get_last_context" ∈ requirementContextProviderMembers) := by
  refine ⟨?_, by decide⟩
  unfold get_info
  by_cases h : extractQuery input = ""
  · rw [if_pos h]
  · rw [if_neg h]
    rcases hq : query_similar_requirements p.chroma_db (extractQuery input)
        p.max_results with e | rs <;> rfl

/-- C9 counterexample: the value stored under the `"timestamp"` key is the
string drawn from `uuid.uuid4()` — a random UUID, not the record-creation
instant the claim describes: the stored metadata differs from the
spec-modelled metadata built with a creation instant. -/
theorem C9_timestamp_is_random_uuid_not_instant :
    (add_requirement emptyStore "req text" "file.md" none
      "4e3a2f9c-7b1d-4a5e-9c2f-8d6b1a0e5f3c").1.coll
      = [⟨md5Hex "req text", "req text",
          [("source", "file.md"),
           ("timestamp", "4e3a2f9c-7b1d-4a5e-9c2f-8d6b1a0e5f3c")]⟩] ∧
    ([("source", "file.md"),
      ("timestamp", "4e3a2f9c-7b1d-4a5e-9c2f-8d6b1a0e5f3c")] : Meta)
      ≠ specStoredMetadata [] "file.md" "2025-03-04T12:00:00" :=
  ⟨rfl, by decide⟩

/-- C9 (amended): every record written by `add_requirement` carries
metadata whose store-owned `"source"` equals the caller's source and whose
store-owned `"timestamp"` equals the freshly drawn uuid4 string (not a
creation instant), overwriting caller-supplied keys of the same names; and
the metadata prepared by `add_multiple_requirements` satisfies the same
per-index property. -/
theorem C9_store_owned_metadata (st : Store) (c src : String)
    (m : Option Meta) (u : String) (mds : List Meta) (supply : Nat → String) :
    (∀ rec ∈ (add_requirement st c src m u).1.coll,
      rec ∈ st.coll ∨ (metaGet rec.metadata "source" = some src ∧
        metaGet rec.metadata "timestamp" = some u)) ∧
    (∀ i, ∀ h : i < (prepareMetas mds src supply).length,
      metaGet ((prepareMetas mds src supply).get ⟨i, h⟩) "source" = some src ∧
      metaGet ((prepareMetas mds src supply).get ⟨i, h⟩) "timestamp"
        = some (supply i)) :=
  ⟨add_requirement_records st c src m u,
    fun i h => mapIdx_prepareMetas mds src supply i h⟩

/-- C9 witness: the amended theorem applied to a metadata dict whose
caller-supplied `"timestamp"` key is overwritten by the drawn uuid. -/
theorem C9_store_owned_metadata_witness :
    metaGet ((prepareMetas [[("timestamp", "caller-ts")]] "s"
      (fun _ => "u-2")).get ⟨0, by decide⟩) "source" = some "s" ∧
    metaGet ((prepareMetas [[("timestamp", "caller-ts")]] "s"
      (fun _ => "u-2")).get ⟨0, by decide⟩) "timestamp" = some "u-2" :=
  (C9_store_owned_metadata emptyStore "c" "s" none "u-1"
    [[("timestamp", "caller-ts")]] (fun _ => "u-2")).2 0 (by decide)

/-- C10: an input with neither a non-empty `"requirement"` value nor a
non-empty `"markdown_file_path"` value makes `get_info` return the
distinct sentinel `"No historical requirements data available."` without
issuing any query to the store and without touching the instance; this
sentinel differs from the empty-result sentinel. -/
theorem C10_no_data_sentinel_without_store_read
    (p : RequirementContextProvider) (input : AgentInput)
    (h1 : truthyGet input "requirement" = none)
    (h2 : truthyGet input "markdown_file_path" = none) :
    (get_info p input).result = .ok "No historical requirements data available." ∧
    (get_info p input).issuedQueries = [] ∧
    (get_info p input).selfAfter = p ∧
    "No historical requirements data available."
      ≠ "No similar historical requirements found in the database." := by
  have hq : extractQuery input = "" := by
    unfold extractQuery
    rw [h1, h2]
  refine ⟨?_, ?_, ?_, by decide⟩ <;> simp [get_info, hq]

/-- C10 witness: the theorem applied to an input holding an empty
`"requirement"` string and a `None` `"markdown_file_path"`. -/
theorem C10_no_data_sentinel_without_store_read_witness :
    (get_info assembleProvider [("requirement", some ""),
      ("markdown_file_path", none)]).result
      = .ok "No historical requirements data available." ∧
    (get_info assembleProvider [("requirement", some ""),
      ("markdown_file_path", none)]).issuedQueries = [] ∧
    (get_info assembleProvider [("requirement", some ""),
      ("markdown_file_path", none)]).selfAfter = assembleProvider ∧
    "No historical requirements data available."
      ≠ "No similar historical requirements found in the database." :=
  C10_no_data_sentinel_without_store_read assembleProvider
    [("requirement", some ""), ("markdown_file_path", none)] rfl rfl

end EstEgg
